import Mathlib

/-!
Verification of the fbx-exporter authenticated session layer.

Shallow embedding of `internal/fbx/http_client_session.go` (the Freebox
session manager: retry/backoff state, session refresh with debounce,
HMAC-SHA1 password derivation, and the retry-once-after-refresh wrapper
`do`), with theorems checking the natural-language specification against it.

Modelling conventions:
- `time.Time` / `time.Duration` values are `Nat` nanoseconds (the Go zero
  time is `0`); `time.Since x` at instant `now` is the integer `now - x`,
  computed in `Int` exactly as Go's signed duration subtraction.
- Network I/O (the transport's GET/POST) is an explicit environment: the
  challenge response, and the session-token response as a function of the
  password actually sent in the POST body.
- Machine words in SHA-1 are `Nat` reduced `% 2^32`; bytes are `Nat < 256`.
-/

namespace Fbx

/-! ## Bytes, SHA-1 and HMAC (embedding of Go's `crypto/sha1`,
`crypto/hmac`, `encoding/hex` as used by `getSessionToken`) -/

/-- The SHA-1 word modulus, 2^32. -/
def w32 : Nat := 4294967296

/-- Left-rotation of a 32-bit word represented as a `Nat < 2^32`. -/
def rotl (n x : Nat) : Nat :=
  ((x <<< n) ||| (x >>> (32 - n))) % w32

/-- Big-endian byte decomposition: `bytesBE n v` is the `n` low-order
bytes of `v`, most significant first. -/
def bytesBE : Nat → Nat → List Nat
  | 0, _ => []
  | n + 1, v => bytesBE n (v / 256) ++ [v % 256]

/-- Big-endian 32-bit word from four bytes. -/
def beWord (a b c d : Nat) : Nat := ((a * 256 + b) * 256 + c) * 256 + d

/-- Group a byte list into big-endian 32-bit words. -/
def toWords : List Nat → List Nat
  | a :: b :: c :: d :: rest => beWord a b c d :: toWords rest
  | _ => []

/-- SHA-1 padding: append `0x80`, zero bytes to 56 mod 64, then the
64-bit big-endian bit length. -/
def sha1Pad (msg : List Nat) : List Nat :=
  let L := msg.length
  let zeros := (119 - L % 64) % 64
  msg ++ [128] ++ List.replicate zeros 0 ++ bytesBE 8 ((L * 8) % 18446744073709551616)

/-- SHA-1 round function `f_t`. -/
def sha1F (t b c d : Nat) : Nat :=
  if t < 20 then (b &&& c) ||| ((b ^^^ (w32 - 1)) &&& d)
  else if t < 40 then b ^^^ c ^^^ d
  else if t < 60 then (b &&& c) ||| (b &&& d) ||| (c &&& d)
  else b ^^^ c ^^^ d

/-- SHA-1 round constant `K_t`. -/
def sha1K (t : Nat) : Nat :=
  if t < 20 then 0x5A827999
  else if t < 40 then 0x6ED9EBA1
  else if t < 60 then 0x8F1BBCDC
  else 0xCA62C1D6

/-- Extend the 16-word message block to the 80-word schedule;
`fuel` counts the remaining words to append. -/
def sha1Expand : Nat → Array Nat → Array Nat
  | 0, w => w
  | n + 1, w =>
    let i := w.size
    let x := rotl 1 ((w.getD (i - 3) 0) ^^^ (w.getD (i - 8) 0) ^^^
                     (w.getD (i - 14) 0) ^^^ (w.getD (i - 16) 0))
    sha1Expand n (w.push x)

/-- The 80 SHA-1 rounds on state `(a, b, c, d, e)`. -/
def sha1Rounds : Nat → Array Nat → Nat → Nat × Nat × Nat × Nat × Nat →
    Nat × Nat × Nat × Nat × Nat
  | 0, _, _, st => st
  | n + 1, w, t, (a, b, c, d, e) =>
    let tmp := (rotl 5 a + sha1F t b c d + e + sha1K t + w.getD t 0) % w32
    sha1Rounds n w (t + 1) (tmp, a, rotl 30 b, c, d)

/-- Compress one 64-byte block into the chaining state. -/
def sha1Compress (block : List Nat) (h : Nat × Nat × Nat × Nat × Nat) :
    Nat × Nat × Nat × Nat × Nat :=
  let w := sha1Expand 64 (toWords block).toArray
  let (h0, h1, h2, h3, h4) := h
  let (a, b, c, d, e) := sha1Rounds 80 w 0 (h0, h1, h2, h3, h4)
  ((h0 + a) % w32, (h1 + b) % w32, (h2 + c) % w32, (h3 + d) % w32, (h4 + e) % w32)

/-- Fold `sha1Compress` over consecutive 64-byte blocks; `fuel` is the
number of blocks remaining. -/
def sha1Blocks : Nat → List Nat → Nat × Nat × Nat × Nat × Nat →
    Nat × Nat × Nat × Nat × Nat
  | 0, _, h => h
  | n + 1, bytes, h => sha1Blocks n (bytes.drop 64) (sha1Compress (bytes.take 64) h)

/-- SHA-1 digest (20 bytes) of a byte list. -/
def sha1Bytes (msg : List Nat) : List Nat :=
  let p := sha1Pad msg
  let (h0, h1, h2, h3, h4) :=
    sha1Blocks (p.length / 64) p
      (0x67452301, 0xEFCDAB89, 0x98BADCFE, 0x10325476, 0xC3D2E1F0)
  bytesBE 4 h0 ++ bytesBE 4 h1 ++ bytesBE 4 h2 ++ bytesBE 4 h3 ++ bytesBE 4 h4

/-- HMAC-SHA1 (RFC 2104, block size 64) — the algorithm of Go's
`hmac.New(sha1.New, key)` followed by `Write(msg)` and `Sum(nil)`. -/
def hmacSha1 (key msg : List Nat) : List Nat :=
  let k0 := if key.length > 64 then sha1Bytes key else key
  let k := k0 ++ List.replicate (64 - k0.length) 0
  let inner := sha1Bytes (k.map (fun b => b ^^^ 0x36) ++ msg)
  sha1Bytes (k.map (fun b => b ^^^ 0x5c) ++ inner)

/-- Lowercase hexadecimal digit. -/
def hexDigit (n : Nat) : Char :=
  if n < 10 then Char.ofNat (48 + n) else Char.ofNat (87 + n)

/-- Lowercase hexadecimal encoding of a byte list, as Go's
`hex.EncodeToString`. -/
def hexEncode (bs : List Nat) : String :=
  String.mk ((bs.map (fun b => [hexDigit (b / 16), hexDigit (b % 16)])).flatten)

/-- UTF-8 encoding of one character as bytes (Go's `[]byte(string)`). -/
def utf8Enc (c : Char) : List Nat :=
  let n := c.toNat
  if n < 128 then [n]
  else if n < 2048 then [192 ||| (n >>> 6), 128 ||| (n &&& 63)]
  else if n < 65536 then
    [224 ||| (n >>> 12), 128 ||| ((n >>> 6) &&& 63), 128 ||| (n &&& 63)]
  else
    [240 ||| (n >>> 18), 128 ||| ((n >>> 12) &&& 63),
     128 ||| ((n >>> 6) &&& 63), 128 ||| (n &&& 63)]

/-- UTF-8 bytes of a string. -/
def strBytes (s : String) : List Nat := (s.data.map utf8Enc).flatten

/-- Password derivation `hex(HMAC-SHA1(key, msg))` on strings: exactly
the computation in `getSessionToken` (http_client_session.go:215-217). -/
def hexHmacSha1 (key msg : String) : String :=
  hexEncode (hmacSha1 (strBytes key) (strBytes msg))

/-! ## Error model and retry state -/

/-- Modelled from the spec: the wrapped API signals two sentinel error
kinds, "auth required" and "invalid token" (`errAuthRequired`,
`errInvalidToken`, declared in a client file not present under `src/`),
distinguishable from every other transport/parsing error. `other`
covers that whole remaining class. -/
inductive FbxError where
  | authRequired
  | invalidToken
  | other (msg : String)
deriving Repr, DecidableEq

/-- Does the `switch` in `do` (http_client_session.go:108-109) match this
error against the two sentinels? -/
def isAuthErr : FbxError → Bool
  | .authRequired => true
  | .invalidToken => true
  | .other _ => false

/-- One second in nanoseconds, the unit Go `time.Duration` counts in. -/
def second : Nat := 1000000000

/-- The `retryConfig` struct (http_client_session.go:20-26); times and
durations in nanoseconds. -/
structure RetryConfig where
  minDelay : Nat
  maxDelay : Nat
  currentDelay : Nat
  failureCount : Nat
  lastFailure : Nat
deriving Repr, DecidableEq

/-- Default `minDelay`: 5 seconds (http_client_session.go:29). -/
def defaultMinDelay : Nat := 5 * second

/-- Default `maxDelay`: 1 minute (http_client_session.go:36). -/
def defaultMaxDelay : Nat := 60 * second

/-- Embeds `newRetryConfig` (http_client_session.go:28-48), with the
environment-parsed delays as parameters (defaults 5s / 60s). -/
def newRetryConfig (minDelay maxDelay : Nat) : RetryConfig :=
  { minDelay := minDelay, maxDelay := maxDelay, currentDelay := minDelay,
    failureCount := 0, lastFailure := 0 }

/-- Embeds `recordFailure` (http_client_session.go:143-155): increment the
failure count, stamp the failure time, double the delay capped at
`maxDelay`. -/
def recordFailure (now : Nat) (rc : RetryConfig) : RetryConfig :=
  { rc with failureCount := rc.failureCount + 1, lastFailure := now,
            currentDelay := if rc.currentDelay * 2 > rc.maxDelay then rc.maxDelay
                            else rc.currentDelay * 2 }

/-- Embeds `resetRetryState` (http_client_session.go:157-163): when failures
were recorded, zero the count and restore the minimum delay. -/
def resetRetryState (rc : RetryConfig) : RetryConfig :=
  if rc.failureCount > 0 then
    { rc with failureCount := 0, currentDelay := rc.minDelay }
  else rc

/-- Embeds `shouldWaitBeforeRetry` (http_client_session.go:134-141): wait only
if there was a failure and it is more recent than twice the current
delay. `time.Since` is signed, hence the `Int` subtraction. -/
def shouldWaitBeforeRetry (now : Nat) (rc : RetryConfig) : Bool :=
  if rc.failureCount = 0 then false
  else decide ((now : Int) - (rc.lastFailure : Int) < (rc.currentDelay : Int) * 2)

/-! ## Session state and refresh -/

/-- The `sessionInfo` struct (http_client_session.go:15-18). -/
structure SessionInfo where
  sessionToken : String
  challenge : String
deriving Repr, DecidableEq

/-- The mutable fields of `FreeboxSession` (http_client_session.go:51-64).
The transport client and URLs live in the environment; `none` models a
nil `*sessionInfo` pointer and `sessionTokenLastUpdate = 0` the Go zero
time. -/
structure FreeboxSession where
  appToken : String
  sessionTokenLastUpdate : Nat
  sessionInfo : Option SessionInfo
  oldSessionInfo : Option SessionInfo
  retryConfig : RetryConfig
deriving Repr, DecidableEq

/-- The transport as seen by the authenticator: the outcome of the
challenge GET, and the outcome of the session POST as a function of the
password string actually sent in its body. -/
structure AuthEnv where
  challengeResp : Except FbxError String
  tokenResp : String → Except FbxError String

/-- Embeds `getChallenge` (http_client_session.go:197-209): GET the login
endpoint and return the challenge field. -/
def getChallenge (env : AuthEnv) : Except FbxError String :=
  env.challengeResp

/-- Embeds `getSessionToken` (http_client_session.go:211-236): derive
`password = hex(HMAC-SHA1(appToken, challenge))` and POST it; the
response carries the session token. -/
def getSessionToken (env : AuthEnv) (appToken challenge : String) :
    Except FbxError String :=
  env.tokenResp (hexHmacSha1 appToken challenge)

/-- The refresh debounce threshold: 5 seconds
(http_client_session.go:175). -/
def debounceWindow : Nat := 5 * second

/-- Outcome of one `refresh` call: its error (`none` = success), the
session state afterwards, and whether the challenge GET resp. the
session-token POST were performed. -/
structure RefreshResult where
  err : Option FbxError
  state : FreeboxSession
  fetchedChallenge : Bool
  postedToken : Bool
deriving Repr, DecidableEq

/-- Embeds `refresh` (http_client_session.go:171-195). Under the lock: skip
everything if the last successful refresh is less than 5 s old;
otherwise fetch a challenge, exchange it for a session token, and on
success stamp the time, demote the current `sessionInfo` to
`oldSessionInfo` and install the new one. -/
def refresh (env : AuthEnv) (now : Nat) (f : FreeboxSession) : RefreshResult :=
  if (now : Int) - (f.sessionTokenLastUpdate : Int) < (debounceWindow : Int) then
    ⟨none, f, false, false⟩
  else
    match getChallenge env with
    | .error e => ⟨some e, f, true, false⟩
    | .ok challenge =>
      match getSessionToken env f.appToken challenge with
      | .error e => ⟨some e, f, true, true⟩
      | .ok tok =>
        ⟨none,
         { f with sessionTokenLastUpdate := now,
                  oldSessionInfo := f.sessionInfo,
                  sessionInfo := some ⟨tok, challenge⟩ },
         true, true⟩

/-- Embeds `addHeader` (http_client_session.go:165-169): the session token a
request is decorated with, read from the current `sessionInfo`. -/
def addHeader (f : FreeboxSession) : Option String :=
  f.sessionInfo.map (·.sessionToken)

/-! ## The `do` wrapper (used by both `Get` and `Post`) -/

/-- Environment of one `do` invocation: the result of the first
`action()` call, the transport behind a possible `refresh`, and the
result of the `action()` retry should it happen. `Get` and `Post`
(http_client_session.go:92-104) both wrap their transport call in the
same `do`, so this models either. -/
structure DoEnv where
  attempt1 : Option FbxError
  authEnv : AuthEnv
  attempt2 : Option FbxError

/-- Observable side effects of one `do` invocation. -/
structure DoTrace where
  slept : Option Nat
  refreshed : Bool
  failureRecorded : Bool
  retried : Bool
deriving Repr, DecidableEq

/-- Result of one `do` invocation. -/
structure DoResult where
  err : Option FbxError
  state : FreeboxSession
  trace : DoTrace
deriving Repr, DecidableEq

/-- Duration the backoff sleep takes in `do` (0 when no sleep occurs). -/
def sleepDur (now : Nat) (f : FreeboxSession) : Nat :=
  if shouldWaitBeforeRetry now f.retryConfig then f.retryConfig.currentDelay else 0

/-- Embeds `do` (http_client_session.go:106-132). On an auth-required or
invalid-token error from the first attempt: sleep `currentDelay` if the
backoff window is active, `refresh`; on refresh failure record one
failure and return the refresh error; on refresh success reset the
retry state and return the single retry's outcome as-is. Every other
error returns immediately. Time advances by the sleep before `refresh`
runs. -/
def doCall (env : DoEnv) (now : Nat) (f : FreeboxSession) : DoResult :=
  match env.attempt1 with
  | none => ⟨none, f, ⟨none, false, false, false⟩⟩
  | some e =>
    if isAuthErr e then
      let slept : Option Nat :=
        if shouldWaitBeforeRetry now f.retryConfig then
          some f.retryConfig.currentDelay
        else none
      let now2 := now + sleepDur now f
      let r := refresh env.authEnv now2 f
      match r.err with
      | some re =>
        ⟨some re,
         { r.state with retryConfig := recordFailure now2 r.state.retryConfig },
         ⟨slept, true, true, false⟩⟩
      | none =>
        ⟨env.attempt2,
         { r.state with retryConfig := resetRetryState r.state.retryConfig },
         ⟨slept, true, false, true⟩⟩
    else ⟨some e, f, ⟨none, false, false, false⟩⟩

/-- The session state assembled by `NewFreeboxSession`
(http_client_session.go:77-85) before its initial refresh: Go
zero values for the timestamp and both `sessionInfo` pointers. -/
def initialSession (appToken : String) (minDelay maxDelay : Nat) : FreeboxSession :=
  { appToken := appToken, sessionTokenLastUpdate := 0,
    sessionInfo := none, oldSessionInfo := none,
    retryConfig := newRetryConfig minDelay maxDelay }

/-- The tail of `NewFreeboxSession` (http_client_session.go:86-89):
perform one `refresh` on the given state; an error aborts construction,
otherwise the refreshed session is returned. -/
def newSessionFrom (env : AuthEnv) (now : Nat) (f : FreeboxSession) :
    Except FbxError FreeboxSession :=
  match (refresh env now f).err with
  | some e => .error e
  | none => .ok (refresh env now f).state

/-- Embeds `NewFreeboxSession` (http_client_session.go:66-90): build the
zero-valued session state and perform one `refresh` before returning;
any error aborts construction. (URL construction, which fails before
any session state exists, is not modelled.) -/
def NewFreeboxSession (env : AuthEnv) (now : Nat) (appToken : String)
    (minDelay maxDelay : Nat) : Except FbxError FreeboxSession :=
  newSessionFrom env now (initialSession appToken minDelay maxDelay)

/-! ## Serialized refresh sequences

`refresh` runs under `sessionTokenLock`, so concurrent refresh calls
execute one after the other in some total order; a sequence of
timestamps models that order. The second component counts how many
calls actually performed the session-token exchange. -/

/-- One serialized `refresh` call at instant `t`, threading the session
state and the running count of performed session-token exchanges. -/
def refreshStep (env : AuthEnv) (p : FreeboxSession × Nat) (t : Nat) :
    FreeboxSession × Nat :=
  let r := refresh env t p.1
  (r.state, p.2 + (if r.postedToken then 1 else 0))

/-- Fold `refresh` over a list of (serialized) call instants, counting
performed challenge+token exchanges. -/
def refreshSeq (env : AuthEnv) (times : List Nat) (f : FreeboxSession) :
    FreeboxSession × Nat :=
  times.foldl (refreshStep env) (f, 0)

/-- Iterated `recordFailure` at the given instants, e.g. the consecutive
failures of C1's scenario. -/
def iterFailures (ts : List Nat) (rc : RetryConfig) : RetryConfig :=
  ts.foldl (fun r t => recordFailure t r) rc

/-! ## Concrete sample inputs (used by witnesses) -/

/-- Sample transport where both login steps succeed. -/
def envOk : AuthEnv := ⟨.ok ("abc123"), fun _ => .ok ("tok1")⟩

/-- Sample transport whose challenge GET fails. -/
def envChFail : AuthEnv := ⟨.error (.other ("net down")), fun _ => .ok ("tok1")⟩

/-- Sample transport whose session POST fails. -/
def envTokFail : AuthEnv := ⟨.ok ("abc123"), fun _ => .error (.other ("bad schema"))⟩

/-- Sample freshly constructed session. -/
def sampleSession : FreeboxSession :=
  { appToken := "secret", sessionTokenLastUpdate := 0,
    sessionInfo := none, oldSessionInfo := none,
    retryConfig := newRetryConfig defaultMinDelay defaultMaxDelay }

/-- Sample session that has a token and has suffered two auth failures,
the last one at instant 6 s. -/
def sessionWithFailures : FreeboxSession :=
  { appToken := "secret", sessionTokenLastUpdate := 0,
    sessionInfo := some ⟨"oldtok", "oldch"⟩, oldSessionInfo := none,
    retryConfig := { minDelay := defaultMinDelay, maxDelay := defaultMaxDelay,
                     currentDelay := 20 * second, failureCount := 2,
                     lastFailure := 6 * second } }

/-- Sample `do` environment: first attempt hits an auth-required error,
refresh succeeds, the retried call succeeds. -/
def doEnvAuthOk : DoEnv := ⟨some .authRequired, envOk, none⟩

/-- Sample `do` environment: first attempt hits an invalid-token error
and the refresh fails at the challenge GET. -/
def doEnvAuthFail : DoEnv := ⟨some .invalidToken, envChFail, none⟩

/-- Sample `do` environment: first attempt fails with a non-auth error. -/
def doEnvOther : DoEnv := ⟨some (.other ("malformed JSON")), envOk, none⟩

/-! ## Retry-state lemmas -/

theorem recordFailure_minDelay (t : Nat) (rc : RetryConfig) :
    (recordFailure t rc).minDelay = rc.minDelay := rfl

theorem recordFailure_maxDelay (t : Nat) (rc : RetryConfig) :
    (recordFailure t rc).maxDelay = rc.maxDelay := rfl

theorem recordFailure_failureCount (t : Nat) (rc : RetryConfig) :
    (recordFailure t rc).failureCount = rc.failureCount + 1 := rfl

theorem recordFailure_currentDelay (t : Nat) (rc : RetryConfig) :
    (recordFailure t rc).currentDelay = min (rc.currentDelay * 2) rc.maxDelay := by
  simp only [recordFailure]
  split <;> omega

theorem resetRetryState_failureCount (rc : RetryConfig) :
    (resetRetryState rc).failureCount = 0 := by
  unfold resetRetryState
  split
  · rfl
  · omega

theorem iterFailures_cons (t : Nat) (ts : List Nat) (rc : RetryConfig) :
    iterFailures (t :: ts) rc = iterFailures ts (recordFailure t rc) := rfl

theorem iterFailures_minDelay :
    ∀ (ts : List Nat) (rc : RetryConfig), (iterFailures ts rc).minDelay = rc.minDelay
  | [], _ => rfl
  | t :: ts, rc => by
    rw [iterFailures_cons, iterFailures_minDelay ts, recordFailure_minDelay]

theorem iterFailures_maxDelay :
    ∀ (ts : List Nat) (rc : RetryConfig), (iterFailures ts rc).maxDelay = rc.maxDelay
  | [], _ => rfl
  | t :: ts, rc => by
    rw [iterFailures_cons, iterFailures_maxDelay ts, recordFailure_maxDelay]

theorem iterFailures_failureCount :
    ∀ (ts : List Nat) (rc : RetryConfig),
      (iterFailures ts rc).failureCount = rc.failureCount + ts.length
  | [], _ => rfl
  | t :: ts, rc => by
    rw [iterFailures_cons, iterFailures_failureCount ts, recordFailure_failureCount]
    simp [Nat.add_assoc, Nat.add_comm 1]

/-- Doubling a capped value and re-capping is the same as capping the
doubled value: the recursive step of the closed backoff formula. -/
theorem min_mul_cap (a M k : Nat) (hk : 1 ≤ k) :
    min (min a M * k) M = min (a * k) M := by
  rcases Nat.le_total a M with h | h
  · rw [Nat.min_eq_left h]
  · have h1 : M ≤ M * k := by
      have := Nat.mul_le_mul (Nat.le_refl M) hk
      simpa using this
    have h2 : M ≤ a * k := le_trans h1 (Nat.mul_le_mul_right k h)
    rw [Nat.min_eq_right h, Nat.min_eq_right h1, Nat.min_eq_right h2]

/-- Closed form of the exponential backoff: after `k ≥ 1` recorded
failures the current delay is the doubled initial delay `2^k` times,
capped at `maxDelay`. -/
theorem iterFailures_currentDelay :
    ∀ (ts : List Nat) (rc : RetryConfig), ts ≠ [] →
      (iterFailures ts rc).currentDelay = min (rc.currentDelay * 2 ^ ts.length) rc.maxDelay
  | [], _, h => absurd rfl h
  | t :: ts, rc, _ => by
    rw [iterFailures_cons]
    cases ts with
    | nil =>
      rw [iterFailures, List.foldl_nil, recordFailure_currentDelay]
      norm_num
    | cons t2 ts2 =>
      rw [iterFailures_currentDelay (t2 :: ts2) (recordFailure t rc) (by simp),
        recordFailure_currentDelay, recordFailure_maxDelay,
        min_mul_cap _ _ _ Nat.one_le_two_pow]
      have harith : rc.currentDelay * 2 * 2 ^ (t2 :: ts2).length =
          rc.currentDelay * 2 ^ (t :: t2 :: ts2).length := by
        simp [List.length_cons, Nat.pow_succ]
        ring
      rw [harith]

/-! ## C1: exponential backoff closed form -/

/-- C1 counterexample: with the default delays (5 s and 60 s), the
current delay after the first recorded failure is 10 s, not
`min(min_delay * 2^(1-1), max_delay) = 5 s` as the claim states —
`recordFailure` doubles the delay already on the first failure. -/
theorem c1_counterexample :
    (iterFailures [0] (newRetryConfig defaultMinDelay defaultMaxDelay)).currentDelay ≠
      min (defaultMinDelay * 2 ^ (1 - 1)) defaultMaxDelay := by decide

/-- C1 (amended): starting from a freshly reset retry state, after the
`k`-th consecutive `recordFailure` (`k = ts.length ≥ 1`, failure
instants `ts` arbitrary) the current delay equals
`min (min_delay * 2 ^ k) max_delay` — the exponent is `k`, not `k - 1`,
since the delay doubles already on the first failure — and the failure
count equals `k`; and the reset performed on a successful refresh
restores `failure_count = 0` and `current_delay = min_delay`. -/
theorem c1_backoff_closed_form (minD maxD : Nat) (ts : List Nat) (h : ts ≠ []) :
    (iterFailures ts (newRetryConfig minD maxD)).currentDelay
        = min (minD * 2 ^ ts.length) maxD ∧
    (iterFailures ts (newRetryConfig minD maxD)).failureCount = ts.length ∧
    (resetRetryState (iterFailures ts (newRetryConfig minD maxD))).failureCount = 0 ∧
    (resetRetryState (iterFailures ts (newRetryConfig minD maxD))).currentDelay = minD := by
  have hcd := iterFailures_currentDelay ts (newRetryConfig minD maxD) h
  have hfc := iterFailures_failureCount ts (newRetryConfig minD maxD)
  refine ⟨?_, ?_, resetRetryState_failureCount _, ?_⟩
  · simpa [newRetryConfig] using hcd
  · simpa [newRetryConfig] using hfc
  · have hl : 0 < ts.length := List.length_pos.mpr h
    have hpos : 0 < (iterFailures ts (newRetryConfig minD maxD)).failureCount := by
      rw [hfc]; simp only [newRetryConfig]; omega
    unfold resetRetryState
    rw [if_pos hpos]
    simp [iterFailures_minDelay, newRetryConfig]

/-- C1 witness: three consecutive failures with the default delays give
delay `min(5s * 2^3, 60s) = 40 s` and count 3; the reset restores 5 s
and count 0. -/
theorem c1_backoff_closed_form_witness :
    ([1, 2, 3] : List Nat) ≠ [] ∧
      ((iterFailures [1, 2, 3] (newRetryConfig defaultMinDelay defaultMaxDelay)).currentDelay
          = min (defaultMinDelay * 2 ^ ([1, 2, 3] : List Nat).length) defaultMaxDelay ∧
       (iterFailures [1, 2, 3] (newRetryConfig defaultMinDelay defaultMaxDelay)).failureCount
          = ([1, 2, 3] : List Nat).length ∧
       (resetRetryState
          (iterFailures [1, 2, 3] (newRetryConfig defaultMinDelay defaultMaxDelay))).failureCount
          = 0 ∧
       (resetRetryState
          (iterFailures [1, 2, 3] (newRetryConfig defaultMinDelay defaultMaxDelay))).currentDelay
          = defaultMinDelay) :=
  ⟨by decide, c1_backoff_closed_form defaultMinDelay defaultMaxDelay [1, 2, 3] (by decide)⟩

/-! ## Refresh lemmas -/

theorem refresh_debounce (env : AuthEnv) (now : Nat) (f : FreeboxSession)
    (h : (now : Int) - (f.sessionTokenLastUpdate : Int) < (debounceWindow : Int)) :
    refresh env now f = ⟨none, f, false, false⟩ := by
  unfold refresh
  rw [if_pos h]

theorem refresh_challenge_error (env : AuthEnv) (now : Nat) (f : FreeboxSession) (e : FbxError)
    (hdb : ¬ ((now : Int) - (f.sessionTokenLastUpdate : Int) < (debounceWindow : Int)))
    (hch : env.challengeResp = .error e) :
    refresh env now f = ⟨some e, f, true, false⟩ := by
  unfold refresh getChallenge getSessionToken
  rw [if_neg hdb, hch]

theorem refresh_token_error (env : AuthEnv) (now : Nat) (f : FreeboxSession)
    (ch : String) (e : FbxError)
    (hdb : ¬ ((now : Int) - (f.sessionTokenLastUpdate : Int) < (debounceWindow : Int)))
    (hch : env.challengeResp = .ok ch)
    (htok : env.tokenResp (hexHmacSha1 f.appToken ch) = .error e) :
    refresh env now f = ⟨some e, f, true, true⟩ := by
  unfold refresh getChallenge getSessionToken
  rw [if_neg hdb, hch]
  simp only [htok]

theorem refresh_success_eq (env : AuthEnv) (now : Nat) (f : FreeboxSession)
    (ch tok : String)
    (hdb : ¬ ((now : Int) - (f.sessionTokenLastUpdate : Int) < (debounceWindow : Int)))
    (hch : env.challengeResp = .ok ch)
    (htok : env.tokenResp (hexHmacSha1 f.appToken ch) = .ok tok) :
    refresh env now f =
      ⟨none,
       { f with sessionTokenLastUpdate := now,
                oldSessionInfo := f.sessionInfo,
                sessionInfo := some ⟨tok, ch⟩ },
       true, true⟩ := by
  unfold refresh getChallenge getSessionToken
  rw [if_neg hdb, hch]
  simp only [htok]

/-- A refresh that returns an error leaves the whole session state
unchanged. -/
theorem refresh_error_state (env : AuthEnv) (now : Nat) (f : FreeboxSession) (e : FbxError)
    (h : (refresh env now f).err = some e) : (refresh env now f).state = f := by
  by_cases hdb : (now : Int) - (f.sessionTokenLastUpdate : Int) < (debounceWindow : Int)
  · rw [refresh_debounce env now f hdb] at h
    exact absurd h (by simp)
  · cases hch : env.challengeResp with
    | error e2 => rw [refresh_challenge_error env now f e2 hdb hch]
    | ok ch =>
      cases htok : env.tokenResp (hexHmacSha1 f.appToken ch) with
      | error e2 => rw [refresh_token_error env now f ch e2 hdb hch htok]
      | ok tok =>
        rw [refresh_success_eq env now f ch tok hdb hch htok] at h
        exact absurd h (by simp)

/-- No refresh outcome ever touches the retry state. -/
theorem refresh_state_retryConfig (env : AuthEnv) (now : Nat) (f : FreeboxSession) :
    (refresh env now f).state.retryConfig = f.retryConfig := by
  by_cases hdb : (now : Int) - (f.sessionTokenLastUpdate : Int) < (debounceWindow : Int)
  · rw [refresh_debounce env now f hdb]
  · cases hch : env.challengeResp with
    | error e2 => rw [refresh_challenge_error env now f e2 hdb hch]
    | ok ch =>
      cases htok : env.tokenResp (hexHmacSha1 f.appToken ch) with
      | error e2 => rw [refresh_token_error env now f ch e2 hdb hch htok]
      | ok tok => rw [refresh_success_eq env now f ch tok hdb hch htok]

/-- A refresh past the debounce window that returns success stamps its
own instant as the last-update time. -/
theorem refresh_ok_lastUpdate (env : AuthEnv) (now : Nat) (f : FreeboxSession)
    (hdb : ¬ ((now : Int) - (f.sessionTokenLastUpdate : Int) < (debounceWindow : Int)))
    (hok : (refresh env now f).err = none) :
    (refresh env now f).state.sessionTokenLastUpdate = now := by
  cases hch : env.challengeResp with
  | error e2 =>
    rw [refresh_challenge_error env now f e2 hdb hch] at hok
    exact absurd hok (by simp)
  | ok ch =>
    cases htok : env.tokenResp (hexHmacSha1 f.appToken ch) with
    | error e2 =>
      rw [refresh_token_error env now f ch e2 hdb hch htok] at hok
      exact absurd hok (by simp)
    | ok tok => rw [refresh_success_eq env now f ch tok hdb hch htok]

/-! ## Construction lemmas -/

theorem newSessionFrom_challenge_error (env : AuthEnv) (now : Nat) (f : FreeboxSession)
    (e : FbxError)
    (hdb : ¬ ((now : Int) - (f.sessionTokenLastUpdate : Int) < (debounceWindow : Int)))
    (hch : env.challengeResp = .error e) :
    newSessionFrom env now f = .error e := by
  unfold newSessionFrom
  rw [refresh_challenge_error env now f e hdb hch]

theorem newSessionFrom_token_error (env : AuthEnv) (now : Nat) (f : FreeboxSession)
    (ch : String) (e : FbxError)
    (hdb : ¬ ((now : Int) - (f.sessionTokenLastUpdate : Int) < (debounceWindow : Int)))
    (hch : env.challengeResp = .ok ch)
    (htok : env.tokenResp (hexHmacSha1 f.appToken ch) = .error e) :
    newSessionFrom env now f = .error e := by
  unfold newSessionFrom
  rw [refresh_token_error env now f ch e hdb hch htok]

theorem newSessionFrom_success (env : AuthEnv) (now : Nat) (f : FreeboxSession)
    (ch tok : String)
    (hdb : ¬ ((now : Int) - (f.sessionTokenLastUpdate : Int) < (debounceWindow : Int)))
    (hch : env.challengeResp = .ok ch)
    (htok : env.tokenResp (hexHmacSha1 f.appToken ch) = .ok tok) :
    newSessionFrom env now f =
      .ok { f with sessionTokenLastUpdate := now,
                   oldSessionInfo := f.sessionInfo,
                   sessionInfo := some ⟨tok, ch⟩ } := by
  unfold newSessionFrom
  rw [refresh_success_eq env now f ch tok hdb hch htok]

/-! ## C3: what a successful refresh updates -/

/-- C3 counterexample: a `refresh` outside the debounce window in which
both exchanges succeed (instant 10 s, last update at the zero time,
both transport steps ok) leaves the retry state untouched: the failure
count stays 2 and the current delay stays 20 s instead of being reset —
contradicting the claim that `refresh` resets the Retry/Backoff
Policy. -/
theorem c3_counterexample :
    ¬ ((10 * second : Int) - (sessionWithFailures.sessionTokenLastUpdate : Int)
        < (debounceWindow : Int)) ∧
    (refresh envOk (10 * second) sessionWithFailures).err = none ∧
    (refresh envOk (10 * second) sessionWithFailures).state.retryConfig.failureCount ≠ 0 ∧
    (refresh envOk (10 * second) sessionWithFailures).state.retryConfig.currentDelay ≠
      sessionWithFailures.retryConfig.minDelay := by decide

/-- C3 (amended): an invocation of `refresh` outside the 5-second
debounce window in which both the challenge fetch and the session-token
exchange succeed replaces the current SessionInfo by one built from the
fresh challenge and token, moves the previously current SessionInfo
into the prior slot, and records the refresh timestamp — but it leaves
the Retry/Backoff state untouched: the retry reset is performed by the
caller `do` after `refresh` returns success, not by `refresh` itself. -/
theorem c3_refresh_success_updates (env : AuthEnv) (now : Nat) (f : FreeboxSession)
    (ch tok : String)
    (hdb : ¬ ((now : Int) - (f.sessionTokenLastUpdate : Int) < (debounceWindow : Int)))
    (hch : env.challengeResp = .ok ch)
    (htok : env.tokenResp (hexHmacSha1 f.appToken ch) = .ok tok) :
    refresh env now f =
      ⟨none,
       { f with sessionTokenLastUpdate := now,
                oldSessionInfo := f.sessionInfo,
                sessionInfo := some ⟨tok, ch⟩ },
       true, true⟩ ∧
    (refresh env now f).state.retryConfig = f.retryConfig := by
  have h := refresh_success_eq env now f ch tok hdb hch htok
  exact ⟨h, by rw [h]⟩

/-- C3 witness: the amended statement evaluated on a concrete session
with two recorded failures at instant 10 s. -/
theorem c3_refresh_success_updates_witness :
    refresh envOk (10 * second) sessionWithFailures =
      ⟨none,
       { sessionWithFailures with
           sessionTokenLastUpdate := 10 * second,
           oldSessionInfo := sessionWithFailures.sessionInfo,
           sessionInfo := some ⟨"tok1", "abc123"⟩ },
       true, true⟩ ∧
    (refresh envOk (10 * second) sessionWithFailures).state.retryConfig =
      sessionWithFailures.retryConfig :=
  c3_refresh_success_updates envOk (10 * second) sessionWithFailures ("abc123") ("tok1")
    (by decide) rfl rfl

/-! ## C4: refresh debounce idempotence -/

/-- C4: a `refresh` call less than 5 seconds after the last successful
refresh performs no challenge fetch and no session-token exchange,
leaves the session state unchanged, and returns success; consequently,
after a real refresh succeeds at `t1`, a second `refresh` at any `t2`
less than 5 seconds later is exactly such a no-op, so the pair of calls
performs at most one real login exchange. -/
theorem c4_refresh_debounce_noop (env1 env2 : AuthEnv) (t1 t2 : Nat) (f : FreeboxSession) :
    ((t1 : Int) - (f.sessionTokenLastUpdate : Int) < (debounceWindow : Int) →
      refresh env1 t1 f = ⟨none, f, false, false⟩) ∧
    (¬ ((t1 : Int) - (f.sessionTokenLastUpdate : Int) < (debounceWindow : Int)) →
      (refresh env1 t1 f).err = none →
      (t2 : Int) - (t1 : Int) < (debounceWindow : Int) →
      refresh env2 t2 (refresh env1 t1 f).state =
        ⟨none, (refresh env1 t1 f).state, false, false⟩) := by
  constructor
  · exact fun h => refresh_debounce env1 t1 f h
  · intro hdb hok ht2
    have hupd := refresh_ok_lastUpdate env1 t1 f hdb hok
    exact refresh_debounce env2 t2 _ (by rw [hupd]; exact ht2)

/-- C4 witness: part one at instant 2 s after construction; part two
with a real refresh at 6 s followed by a second call at 8 s. -/
theorem c4_refresh_debounce_noop_witness :
    refresh envOk (2 * second) sampleSession = ⟨none, sampleSession, false, false⟩ ∧
    refresh envOk (8 * second) (refresh envOk (6 * second) sampleSession).state =
      ⟨none, (refresh envOk (6 * second) sampleSession).state, false, false⟩ :=
  ⟨(c4_refresh_debounce_noop envOk envOk (2 * second) 0 sampleSession).1 (by decide),
   (c4_refresh_debounce_noop envOk envOk (6 * second) (8 * second) sampleSession).2
      (by decide) (by decide) (by decide)⟩

/-! ## C10: failed refresh preserves the session -/

/-- C10: past the debounce window, a `refresh` in which the challenge
fetch or the session-token exchange fails returns that error and leaves
the session state exactly as it was — the current SessionInfo, the
prior SessionInfo and the last-refresh timestamp are all unchanged. -/
theorem c10_failed_refresh_preserves_state (env : AuthEnv) (now : Nat) (f : FreeboxSession)
    (hdb : ¬ ((now : Int) - (f.sessionTokenLastUpdate : Int) < (debounceWindow : Int))) :
    (∀ e, env.challengeResp = .error e →
      refresh env now f = ⟨some e, f, true, false⟩) ∧
    (∀ ch e, env.challengeResp = .ok ch →
      env.tokenResp (hexHmacSha1 f.appToken ch) = .error e →
      refresh env now f = ⟨some e, f, true, true⟩) :=
  ⟨fun e hch => refresh_challenge_error env now f e hdb hch,
   fun ch e hch htok => refresh_token_error env now f ch e hdb hch htok⟩

/-- C10 witness: both failure shapes evaluated at instant 6 s on a
session that already holds a token. -/
theorem c10_failed_refresh_preserves_state_witness :
    refresh envChFail (6 * second) sessionWithFailures =
      ⟨some (.other ("net down")), sessionWithFailures, true, false⟩ ∧
    refresh envTokFail (6 * second) sessionWithFailures =
      ⟨some (.other ("bad schema")), sessionWithFailures, true, true⟩ :=
  ⟨(c10_failed_refresh_preserves_state envChFail (6 * second) sessionWithFailures
      (by decide)).1 (.other ("net down")) rfl,
   (c10_failed_refresh_preserves_state envTokFail (6 * second) sessionWithFailures
      (by decide)).2 ("abc123") (.other ("bad schema")) rfl rfl⟩

/-! ## C9: one exchange under a storm of serialized refreshes -/

theorem refreshStep_skip (env : AuthEnv) (s : FreeboxSession) (n t : Nat)
    (h : (t : Int) - (s.sessionTokenLastUpdate : Int) < (debounceWindow : Int)) :
    refreshStep env (s, n) t = (s, n) := by
  unfold refreshStep
  rw [refresh_debounce env t s h]
  simp

theorem foldl_refreshStep_skip (env : AuthEnv) :
    ∀ (ts : List Nat) (s : FreeboxSession) (n : Nat),
      (∀ t ∈ ts, (t : Int) - (s.sessionTokenLastUpdate : Int) < (debounceWindow : Int)) →
      ts.foldl (refreshStep env) (s, n) = (s, n)
  | [], _, _, _ => rfl
  | t :: ts, s, n, h => by
    rw [List.foldl_cons, refreshStep_skip env s n t (h t (by simp))]
    exact foldl_refreshStep_skip env ts s n (fun t' ht' => h t' (by simp [ht']))

/-- C9: the session lock makes refreshes execute one after the other in
some total order, modelled as a list of call instants. When `N ≥ 1`
serialized callers all trigger `refresh` at essentially the same
instant — the first one past the debounce window and succeeding, every
later instant within the debounce window of the first — exactly one
real challenge+session-token exchange is performed (the exchange count
of the whole sequence is 1, not `N`), every later call is a successful
no-op, and the final state all callers observe carries the single fresh
session token in its header decoration. -/
theorem c9_serialized_single_exchange (env : AuthEnv) (t0 : Nat) (rest : List Nat)
    (f : FreeboxSession) (ch tok : String)
    (hdb : ¬ ((t0 : Int) - (f.sessionTokenLastUpdate : Int) < (debounceWindow : Int)))
    (hch : env.challengeResp = .ok ch)
    (htok : env.tokenResp (hexHmacSha1 f.appToken ch) = .ok tok)
    (hrest : ∀ t ∈ rest, (t : Int) - (t0 : Int) < (debounceWindow : Int)) :
    refreshSeq env (t0 :: rest) f = ((refresh env t0 f).state, 1) ∧
    addHeader (refreshSeq env (t0 :: rest) f).1 = some tok := by
  have hr := refresh_success_eq env t0 f ch tok hdb hch htok
  have hlast : (refresh env t0 f).state.sessionTokenLastUpdate = t0 := by rw [hr]
  have hstep : refreshStep env (f, 0) t0 = ((refresh env t0 f).state, 1) := by
    unfold refreshStep
    rw [hr]
    simp
  have hfold : refreshSeq env (t0 :: rest) f = ((refresh env t0 f).state, 1) := by
    unfold refreshSeq
    rw [List.foldl_cons, hstep]
    exact foldl_refreshStep_skip env rest _ 1 (fun t ht => by rw [hlast]; exact hrest t ht)
  refine ⟨hfold, ?_⟩
  rw [hfold]
  rw [hr]
  rfl

/-- C9 witness: three serialized callers at instants 6 s, 6 s and
6 s + 1 ns produce exactly one exchange and all observe token
`tok1`. -/
theorem c9_serialized_single_exchange_witness :
    refreshSeq envOk [6 * second, 6 * second, 6 * second + 1] sampleSession =
      ((refresh envOk (6 * second) sampleSession).state, 1) ∧
    addHeader (refreshSeq envOk [6 * second, 6 * second, 6 * second + 1] sampleSession).1 =
      some ("tok1") :=
  c9_serialized_single_exchange envOk (6 * second) [6 * second, 6 * second + 1]
    sampleSession ("abc123") ("tok1") (by decide) rfl rfl (by decide)

/-! ## C5: the session password is hex HMAC-SHA1 of the challenge -/

set_option maxRecDepth 100000 in
/-- C5: the password sent in the session-token exchange is the
lowercase hex encoding of the HMAC-SHA1 digest whose key is the app
token and whose message is the exact challenge string received (no
normalization or trimming is applied anywhere on the path); for
challenge "abc123" and app token "secret" it equals the known
HMAC-SHA1 test vector. -/
theorem c5_password_is_hmac_sha1 :
    (∀ (env : AuthEnv) (appToken challenge : String),
      getSessionToken env appToken challenge =
        env.tokenResp (hexEncode (hmacSha1 (strBytes appToken) (strBytes challenge)))) ∧
    hexHmacSha1 ("secret") ("abc123") = "8657345ce1d0a7304b31540a34ec4355a86c2b69" :=
  ⟨fun _ _ _ => rfl, by decide⟩

/-! ## C8: construction performs the initial login -/

/-- C8: `NewFreeboxSession` performs one full login (challenge fetch
plus session-token exchange) before returning, at any construction
instant at least one debounce window past the Go zero time (which every
real clock is). If either step fails, construction returns that error
and no session is produced; on success the returned session has the
fresh SessionInfo installed, so a caller never holds a session manager
without a completed initial login. -/
theorem c8_construction_initial_login (env : AuthEnv) (now : Nat) (appToken : String)
    (minD maxD : Nat) (hnow : debounceWindow ≤ now) :
    (∀ e, env.challengeResp = .error e →
      NewFreeboxSession env now appToken minD maxD = .error e) ∧
    (∀ ch e, env.challengeResp = .ok ch →
      env.tokenResp (hexHmacSha1 appToken ch) = .error e →
      NewFreeboxSession env now appToken minD maxD = .error e) ∧
    (∀ ch tok, env.challengeResp = .ok ch →
      env.tokenResp (hexHmacSha1 appToken ch) = .ok tok →
      NewFreeboxSession env now appToken minD maxD =
        .ok { appToken := appToken, sessionTokenLastUpdate := now,
              sessionInfo := some ⟨tok, ch⟩, oldSessionInfo := none,
              retryConfig := newRetryConfig minD maxD }) := by
  have hdb : ¬ (((now : Nat) : Int) -
      (((initialSession appToken minD maxD).sessionTokenLastUpdate : Nat) : Int)
        < (debounceWindow : Int)) := by
    simp only [initialSession]
    omega
  refine ⟨?_, ?_, ?_⟩
  · intro e hch
    exact newSessionFrom_challenge_error env now _ e hdb hch
  · intro ch e hch htok
    exact newSessionFrom_token_error env now _ ch e hdb hch htok
  · intro ch tok hch htok
    exact newSessionFrom_success env now _ ch tok hdb hch htok

/-- C8 witness: construction at instant 6 s under the three sample
transports — both failure shapes abort with the transport's error, the
successful one returns the logged-in session. -/
theorem c8_construction_initial_login_witness :
    NewFreeboxSession envChFail (6 * second) ("secret") defaultMinDelay defaultMaxDelay =
      .error (.other ("net down")) ∧
    NewFreeboxSession envTokFail (6 * second) ("secret") defaultMinDelay defaultMaxDelay =
      .error (.other ("bad schema")) ∧
    NewFreeboxSession envOk (6 * second) ("secret") defaultMinDelay defaultMaxDelay =
      .ok { appToken := "secret", sessionTokenLastUpdate := 6 * second,
            sessionInfo := some ⟨"tok1", "abc123"⟩, oldSessionInfo := none,
            retryConfig := newRetryConfig defaultMinDelay defaultMaxDelay } :=
  ⟨(c8_construction_initial_login envChFail (6 * second) ("secret") defaultMinDelay
      defaultMaxDelay (by decide)).1 (.other ("net down")) rfl,
   (c8_construction_initial_login envTokFail (6 * second) ("secret") defaultMinDelay
      defaultMaxDelay (by decide)).2.1 ("abc123") (.other ("bad schema")) rfl rfl,
   (c8_construction_initial_login envOk (6 * second) ("secret") defaultMinDelay
      defaultMaxDelay (by decide)).2.2 ("abc123") ("tok1") rfl rfl⟩

/-! ## Lemmas on the `do` wrapper -/

theorem doCall_first_ok (env : DoEnv) (now : Nat) (f : FreeboxSession)
    (h : env.attempt1 = none) :
    doCall env now f = ⟨none, f, ⟨none, false, false, false⟩⟩ := by
  unfold doCall
  rw [h]

theorem doCall_nonauth (env : DoEnv) (now : Nat) (f : FreeboxSession) (e : FbxError)
    (h1 : env.attempt1 = some e) (h2 : isAuthErr e = false) :
    doCall env now f = ⟨some e, f, ⟨none, false, false, false⟩⟩ := by
  unfold doCall
  rw [h1]
  simp [h2]

theorem doCall_auth_refresh_error (env : DoEnv) (now : Nat) (f : FreeboxSession)
    (e re : FbxError) (h1 : env.attempt1 = some e) (h2 : isAuthErr e = true)
    (hre : (refresh env.authEnv (now + sleepDur now f) f).err = some re) :
    doCall env now f =
      ⟨some re,
       { (refresh env.authEnv (now + sleepDur now f) f).state with
           retryConfig :=
             recordFailure (now + sleepDur now f)
               (refresh env.authEnv (now + sleepDur now f) f).state.retryConfig },
       ⟨if shouldWaitBeforeRetry now f.retryConfig then
           some f.retryConfig.currentDelay
         else none,
        true, true, false⟩⟩ := by
  unfold doCall
  rw [h1]
  simp [h2, hre]

theorem doCall_auth_refresh_ok (env : DoEnv) (now : Nat) (f : FreeboxSession)
    (e : FbxError) (h1 : env.attempt1 = some e) (h2 : isAuthErr e = true)
    (hre : (refresh env.authEnv (now + sleepDur now f) f).err = none) :
    doCall env now f =
      ⟨env.attempt2,
       { (refresh env.authEnv (now + sleepDur now f) f).state with
           retryConfig :=
             resetRetryState
               (refresh env.authEnv (now + sleepDur now f) f).state.retryConfig },
       ⟨if shouldWaitBeforeRetry now f.retryConfig then
           some f.retryConfig.currentDelay
         else none,
        true, false, true⟩⟩ := by
  unfold doCall
  rw [h1]
  simp [h2, hre]

/-! ## C6: non-auth errors are surfaced untouched -/

/-- C6: a `Get`/`Post` call whose transport attempt fails with any error
other than the two auth sentinels returns that error immediately: no
sleep, no refresh, no failure recorded, no retry, session state
unchanged. -/
theorem c6_nonauth_error_immediate (env : DoEnv) (now : Nat) (f : FreeboxSession)
    (msg : String) (h : env.attempt1 = some (.other msg)) :
    doCall env now f = ⟨some (.other msg), f, ⟨none, false, false, false⟩⟩ :=
  doCall_nonauth env now f (.other msg) h rfl

/-- C6 witness: a malformed-JSON style error at instant 0. -/
theorem c6_nonauth_error_immediate_witness :
    doCall doEnvOther 0 sampleSession =
      ⟨some (.other ("malformed JSON")), sampleSession, ⟨none, false, false, false⟩⟩ :=
  c6_nonauth_error_immediate doEnvOther 0 sampleSession ("malformed JSON") rfl

/-! ## C7: the backoff window test and the pre-refresh sleep -/

/-- C7: `shouldWaitBeforeRetry` returns true exactly when the failure
count is positive and the elapsed time since the last failure is
strictly below twice the current delay; and on the auth-failure path of
a `Get`/`Post` call with the window active, the caller sleeps exactly
the current delay before the refresh happens. -/
theorem c7_backoff_window_and_sleep (now : Nat) (rc : RetryConfig) (env : DoEnv)
    (f : FreeboxSession) (e : FbxError)
    (h1 : env.attempt1 = some e) (h2 : isAuthErr e = true)
    (h3 : shouldWaitBeforeRetry now f.retryConfig = true) :
    (shouldWaitBeforeRetry now rc = true ↔
      0 < rc.failureCount ∧
        (now : Int) - (rc.lastFailure : Int) < (rc.currentDelay : Int) * 2) ∧
    ((doCall env now f).trace.slept = some f.retryConfig.currentDelay ∧
     (doCall env now f).trace.refreshed = true) := by
  constructor
  · unfold shouldWaitBeforeRetry
    rcases Nat.eq_zero_or_pos rc.failureCount with h | h
    · simp [h]
    · simp [Nat.pos_iff_ne_zero.mp h, h]
  · cases hre : (refresh env.authEnv (now + sleepDur now f) f).err with
    | some re =>
      rw [doCall_auth_refresh_error env now f e re h1 h2 hre]
      simp [h3]
    | none =>
      rw [doCall_auth_refresh_ok env now f e h1 h2 hre]
      simp [h3]

/-- C7 witness: a session with two prior failures (last one 1 s ago,
current delay 20 s) at instant 7 s — the window is active and `do`
sleeps exactly the 20 s current delay before refreshing. -/
theorem c7_backoff_window_and_sleep_witness :
    (shouldWaitBeforeRetry (7 * second) sessionWithFailures.retryConfig = true ↔
      0 < sessionWithFailures.retryConfig.failureCount ∧
        ((7 * second : Nat) : Int) - (sessionWithFailures.retryConfig.lastFailure : Int) <
          (sessionWithFailures.retryConfig.currentDelay : Int) * 2) ∧
    ((doCall doEnvAuthOk (7 * second) sessionWithFailures).trace.slept =
        some sessionWithFailures.retryConfig.currentDelay ∧
     (doCall doEnvAuthOk (7 * second) sessionWithFailures).trace.refreshed = true) :=
  c7_backoff_window_and_sleep (7 * second) sessionWithFailures.retryConfig doEnvAuthOk
    sessionWithFailures (.authRequired) rfl rfl (by decide)

/-! ## C2: refresh-then-retry-once on auth failures -/

/-- C2: when the first transport attempt of a `Get`/`Post` call fails
with an auth-required or invalid-token error, the wrapper calls
`refresh`. If the refresh fails, exactly one failure is recorded, the
refresh error is returned, and the original call is not reattempted. If
the refresh succeeds, the backoff state is reset and the original call
is retried exactly once, its outcome — success or any error, including
a second auth error — returned as-is. -/
theorem c2_auth_error_refresh_then_single_retry (env : DoEnv) (now : Nat)
    (f : FreeboxSession) (e : FbxError)
    (h1 : env.attempt1 = some e) (h2 : isAuthErr e = true) :
    (doCall env now f).trace.refreshed = true ∧
    (∀ re, (refresh env.authEnv (now + sleepDur now f) f).err = some re →
      (doCall env now f).err = some re ∧
      (doCall env now f).trace.retried = false ∧
      (doCall env now f).trace.failureRecorded = true ∧
      (doCall env now f).state.retryConfig =
        recordFailure (now + sleepDur now f) f.retryConfig ∧
      (doCall env now f).state.retryConfig.failureCount =
        f.retryConfig.failureCount + 1) ∧
    ((refresh env.authEnv (now + sleepDur now f) f).err = none →
      (doCall env now f).err = env.attempt2 ∧
      (doCall env now f).trace.retried = true ∧
      (doCall env now f).trace.failureRecorded = false ∧
      (doCall env now f).state.retryConfig = resetRetryState f.retryConfig ∧
      (doCall env now f).state.retryConfig.failureCount = 0) := by
  refine ⟨?_, ?_, ?_⟩
  · cases hre : (refresh env.authEnv (now + sleepDur now f) f).err with
    | some re => rw [doCall_auth_refresh_error env now f e re h1 h2 hre]
    | none => rw [doCall_auth_refresh_ok env now f e h1 h2 hre]
  · intro re hre
    rw [doCall_auth_refresh_error env now f e re h1 h2 hre]
    have hst := refresh_error_state env.authEnv (now + sleepDur now f) f re hre
    refine ⟨rfl, rfl, rfl, ?_, ?_⟩
    · rw [hst]
    · rw [hst]
      exact recordFailure_failureCount _ _
  · intro hre
    rw [doCall_auth_refresh_ok env now f e h1 h2 hre]
    have hrc := refresh_state_retryConfig env.authEnv (now + sleepDur now f) f
    refine ⟨rfl, rfl, rfl, ?_, ?_⟩
    · rw [hrc]
    · rw [hrc]
      exact resetRetryState_failureCount _

/-- C2 witness: at instant 6 s on a fresh session — failing refresh
(challenge GET fails) records one failure and surfaces the transport
error without a retry; succeeding refresh resets the backoff and the
single retried call's outcome is returned. -/
theorem c2_auth_error_refresh_then_single_retry_witness :
    ((doCall doEnvAuthFail (6 * second) sampleSession).err =
        some (.other ("net down")) ∧
     (doCall doEnvAuthFail (6 * second) sampleSession).trace.retried = false ∧
     (doCall doEnvAuthFail (6 * second) sampleSession).trace.failureRecorded = true ∧
     (doCall doEnvAuthFail (6 * second) sampleSession).state.retryConfig =
       recordFailure (6 * second + sleepDur (6 * second) sampleSession)
         sampleSession.retryConfig ∧
     (doCall doEnvAuthFail (6 * second) sampleSession).state.retryConfig.failureCount =
       sampleSession.retryConfig.failureCount + 1) ∧
    ((doCall doEnvAuthOk (6 * second) sampleSession).err = doEnvAuthOk.attempt2 ∧
     (doCall doEnvAuthOk (6 * second) sampleSession).trace.retried = true ∧
     (doCall doEnvAuthOk (6 * second) sampleSession).trace.failureRecorded = false ∧
     (doCall doEnvAuthOk (6 * second) sampleSession).state.retryConfig =
       resetRetryState sampleSession.retryConfig ∧
     (doCall doEnvAuthOk (6 * second) sampleSession).state.retryConfig.failureCount
       = 0) :=
  ⟨(c2_auth_error_refresh_then_single_retry doEnvAuthFail (6 * second) sampleSession
      (.invalidToken) rfl rfl).2.1 (.other ("net down")) (by decide),
   (c2_auth_error_refresh_then_single_retry doEnvAuthOk (6 * second) sampleSession
      (.authRequired) rfl rfl).2.2 (by decide)⟩

end Fbx
